import Mathlib

/-!
Verification of the appmail template store (appmail/models.py) against its
natural-language specification.

The development shallowly embeds the two pieces of logic the spec singles
out — the locale normalizer / template resolver of `EmailTemplateManager`
and the integrity guard of `EmailTemplateTranslation` — together with the
save lifecycle of `EmailTemplateContentBase`.

Modelling conventions:
* `settings.LANGUAGES` is passed as a `List String` of locale codes (the
  Python code only ever reads `[x[0] for x in settings.LANGUAGES]`), and
  `settings.LANGUAGE_CODE` as a `String`.
* The HTML-to-plaintext converter (`html2text`) is an external collaborator
  (spec section 6) and is passed in as a function `h2t : String → String`.
* The persistent store is the spec's black-box relational collaborator; it
  is modelled as two lists of rows plus per-table primary-key counters.
  `save` on a row with an assigned primary key replaces the row with that
  key (inserting it if absent, as Django's update-then-insert does); `save`
  on a fresh row assigns the next key and appends.
* Logging is observable only through the log sink (spec section 7 calls the
  fallback "not an error ... observable only via a log event") and is not
  modelled.
* Python truthiness of `self.pk` and `self.locale` is rendered as `Option`
  matching / inequality with `""`.  Accessing `self.parent_template` when
  the non-nullable relation is unset raises Django's
  `RelatedObjectDoesNotExist` (the guard at models.py 306 never sees a
  falsy parent), modelled as an error outcome of the guard.
-/

set_option maxRecDepth 4000

/-- Models Python `str.lower()` (character-wise, as used on locale codes). -/
def pyLower (s : String) : String :=
  String.mk (s.data.map Char.toLower)

/-- Models Python `str.replace('_', '-')`: both pattern and replacement are
single characters, so the call is a character-wise substitution. -/
def pyReplaceUnderscoreHyphen (s : String) : String :=
  String.mk (s.data.map (fun c => if c = '_' then '-' else c))

/-- Models the Python slice `s[:2]`. -/
def pyTake2 (s : String) : String :=
  String.mk (s.data.take 2)

/-- Row / in-memory instance of `appmail.models.EmailTemplate`.
`pk` is `none` before the first save, exactly as Django's `self.pk is None`. -/
structure EmailTemplate where
  pk : Option Nat
  name : String
  locale : String
  subject : String
  html_template : String
  text_template : String
deriving DecidableEq

/-- Row / in-memory instance of `appmail.models.EmailTemplateTranslation`.
`parent_template` is the in-memory related object of the foreign key
(`none` when unset, which Python reads as falsy on line 306 of models.py). -/
structure EmailTemplateTranslation where
  pk : Option Nat
  parent_template : Option EmailTemplate
  locale : String
  subject : String
  html_template : String
  text_template : String
deriving DecidableEq

/-- The foreign-key attribute `self.parent_template_id`: the primary key of
the related object, `none` when the relation is unset or the parent unsaved. -/
def EmailTemplateTranslation.parent_template_id
    (t : EmailTemplateTranslation) : Option Nat :=
  t.parent_template.bind (fun p => p.pk)

/-- The persistent store (both tables plus auto-increment counters). -/
structure Store where
  templates : List EmailTemplate
  translations : List EmailTemplateTranslation
  next_template_pk : Nat
  next_translation_pk : Nat
deriving DecidableEq

/-- The empty database; sqlite-style auto-increment keys start at 1. -/
def Store.empty : Store :=
  { templates := [], translations := [], next_template_pk := 1,
    next_translation_pk := 1 }

/-- Outcome of Django's `QuerySet.get`: the unique match, `DoesNotExist`,
or `MultipleObjectsReturned`. -/
inductive GetOutcome (α : Type) where
  | found : α → GetOutcome α
  | doesNotExist : GetOutcome α
  | multipleObjectsReturned : GetOutcome α
deriving DecidableEq

/-- Models Django's `QuerySet.get` on the list of rows matching the filter. -/
def djangoGet {α : Type} (qs : List α) : GetOutcome α :=
  match qs with
  | [] => GetOutcome.doesNotExist
  | [a] => GetOutcome.found a
  | _ => GetOutcome.multipleObjectsReturned

/-- Errors surfaced by `get_by_name_then_locale`: the module-level
`EmailTemplateDoesNotExist` (spec name: `TemplateNotFound`), and Django's
`MultipleObjectsReturned`, which the code does not catch. -/
inductive LookupError where
  | emailTemplateDoesNotExist : LookupError
  | multipleObjectsReturned : LookupError
deriving DecidableEq

/-- A successful lookup returns either an `EmailTemplate` or an
`EmailTemplateTranslation` instance (models.py line 106). -/
inductive LookupResult where
  | template : EmailTemplate → LookupResult
  | translation : EmailTemplateTranslation → LookupResult
deriving DecidableEq

/-- `EmailTemplateManager._clean_language_code_input` (models.py 47-89).
Note that line 70 takes the first two characters of the RAW
`locale_code`, not of `cleaned_locale_code`. -/
def clean_language_code_input (LANGUAGES : List String)
    (LANGUAGE_CODE : String) (locale_code : String) : String :=
  let cleaned_locale_code := pyReplaceUnderscoreHyphen (pyLower locale_code)
  if cleaned_locale_code ∈ LANGUAGES then
    cleaned_locale_code
  else
    let core_locale_code := pyTake2 locale_code
    if core_locale_code ∈ LANGUAGES then
      core_locale_code
    else
      LANGUAGE_CODE

/-- The related manager `template.translations`: translation rows whose
foreign key equals the template's primary key. -/
def relatedTranslations (s : Store) (template : EmailTemplate) :
    List EmailTemplateTranslation :=
  s.translations.filter (fun r => decide (r.parent_template_id = template.pk))

/-- `EmailTemplateManager.get_by_name_then_locale` (models.py 91-149):
clean the locale, `get` the template by name (re-raising `DoesNotExist` as
`EmailTemplateDoesNotExist`), and if the template's locale differs from the
cleaned code try `template.translations.get(locale=...)`, falling back to
the template itself when that raises `DoesNotExist`. -/
def get_by_name_then_locale (LANGUAGES : List String) (LANGUAGE_CODE : String)
    (s : Store) (name : String) (locale_code : String) :
    Except LookupError LookupResult :=
  let cleaned_locale_code :=
    clean_language_code_input LANGUAGES LANGUAGE_CODE locale_code
  match djangoGet (s.templates.filter (fun t => decide (t.name = name))) with
  | GetOutcome.doesNotExist => Except.error LookupError.emailTemplateDoesNotExist
  | GetOutcome.multipleObjectsReturned =>
      Except.error LookupError.multipleObjectsReturned
  | GetOutcome.found template =>
    if template.locale ≠ cleaned_locale_code then
      match djangoGet ((relatedTranslations s template).filter
          (fun r => decide (r.locale = cleaned_locale_code))) with
      | GetOutcome.found tr => Except.ok (LookupResult.translation tr)
      | GetOutcome.doesNotExist => Except.ok (LookupResult.template template)
      | GetOutcome.multipleObjectsReturned =>
          Except.error LookupError.multipleObjectsReturned
    else
      Except.ok (LookupResult.template template)

/-- `EmailTemplateContentBase.save` lines 194-195: on first save only
(`not self.pk`), a blank `text_template` is populated from `html_template`. -/
def derive_text_template (h2t : String → String) (pk : Option Nat)
    (text_template html_template : String) : String :=
  if pk = none ∧ text_template = "" then h2t html_template else text_template

/-- Replace the row carrying the given primary key, or insert (Django's
update-then-insert behaviour of `Model.save` with a preset pk). -/
def upsertTemplates (rows : List EmailTemplate) (t : EmailTemplate) :
    List EmailTemplate :=
  if rows.any (fun r => decide (r.pk = t.pk)) then
    rows.map (fun r => if r.pk = t.pk then t else r)
  else
    rows ++ [t]

/-- Replace the translation row carrying the given primary key, or insert. -/
def upsertTranslations (rows : List EmailTemplateTranslation)
    (t : EmailTemplateTranslation) : List EmailTemplateTranslation :=
  if rows.any (fun r => decide (r.pk = t.pk)) then
    rows.map (fun r => if r.pk = t.pk then t else r)
  else
    rows ++ [t]

/-- `EmailTemplate.save` (via `EmailTemplateContentBase.save`): derive the
text body if applicable, then persist, assigning a fresh primary key on
first save.  Returns the updated store and the saved instance. -/
def emailTemplateSave (h2t : String → String) (s : Store)
    (t : EmailTemplate) : Store × EmailTemplate :=
  let t1 : EmailTemplate :=
    { t with text_template :=
        derive_text_template h2t t.pk t.text_template t.html_template }
  match t.pk with
  | some k =>
      ({ s with templates := upsertTemplates s.templates t1,
                next_template_pk := max s.next_template_pk (k + 1) }, t1)
  | none =>
      let t2 : EmailTemplate := { t1 with pk := some s.next_template_pk }
      ({ s with templates := s.templates ++ [t2],
                next_template_pk := s.next_template_pk + 1 }, t2)

/-- The two `IntegrityError`s raised by
`EmailTemplateTranslation._enforce_integrity` (models.py 317 and 328);
the spec names them `DuplicateTranslation` and `SameLocaleAsParent`.
Each carries the parent name and locale interpolated into the message. -/
inductive IntegrityError where
  | duplicateTranslation : String → String → IntegrityError
  | sameLocaleAsParent : String → String → IntegrityError
deriving DecidableEq

/-- Errors that abort `EmailTemplateTranslation.save`: accessing the unset
non-nullable `parent_template` relation in the guard at models.py line 306
raises Django's `RelatedObjectDoesNotExist`, and the explicit checks raise
`IntegrityError`. -/
inductive TranslationSaveError where
  | relatedObjectDoesNotExist : TranslationSaveError
  | integrityError : IntegrityError → TranslationSaveError
deriving DecidableEq

/-- The `base_qs` queryset of `_enforce_integrity` (models.py 308-314):
translations with the same `parent_template_id` and `locale`, excluding the
instance's own primary key when it has one. -/
def base_queryset (s : Store) (t : EmailTemplateTranslation) :
    List EmailTemplateTranslation :=
  let qs := s.translations.filter (fun r =>
    decide (r.parent_template_id = t.parent_template_id ∧ r.locale = t.locale))
  match t.pk with
  | some k => qs.filter (fun r => decide (¬r.pk = some k))
  | none => qs

/-- `EmailTemplateTranslation._enforce_integrity` (models.py 291-336):
evaluating the guard `if self.parent_template and self.locale` raises
`RelatedObjectDoesNotExist` when the non-nullable relation is unset; with
a set parent and a non-blank locale, reject a duplicate `(parent, locale)`
pair, then reject a locale equal to the parent's.  Returns the raised
error, or `none` when the checks pass or are skipped for a blank locale. -/
def enforce_integrity (s : Store) (t : EmailTemplateTranslation) :
    Option TranslationSaveError :=
  match t.parent_template with
  | none => some TranslationSaveError.relatedObjectDoesNotExist
  | some parent_template =>
    if t.locale = "" then
      none
    else if base_queryset s t = [] then
      if t.locale = parent_template.locale then
        some (TranslationSaveError.integrityError
          (IntegrityError.sameLocaleAsParent parent_template.name t.locale))
      else
        none
    else
      some (TranslationSaveError.integrityError
        (IntegrityError.duplicateTranslation parent_template.name t.locale))

/-- `EmailTemplateTranslation.save` (models.py 338-342): run
`_enforce_integrity` first; only if it passes, run the base-class text
derivation and persist. -/
def emailTemplateTranslationSave (h2t : String → String) (s : Store)
    (t : EmailTemplateTranslation) :
    Except TranslationSaveError (Store × EmailTemplateTranslation) :=
  match enforce_integrity s t with
  | some e => Except.error e
  | none =>
    let t1 : EmailTemplateTranslation :=
      { t with text_template :=
          derive_text_template h2t t.pk t.text_template t.html_template }
    match t.pk with
    | some k =>
        Except.ok ({ s with
          translations := upsertTranslations s.translations t1,
          next_translation_pk := max s.next_translation_pk (k + 1) }, t1)
    | none =>
        let t2 : EmailTemplateTranslation :=
          { t1 with pk := some s.next_translation_pk }
        Except.ok ({ s with
          translations := s.translations ++ [t2],
          next_translation_pk := s.next_translation_pk + 1 }, t2)

/-- Store states reachable from the empty database using only the two save
operations (with a fixed HTML-to-text collaborator). -/
inductive Reachable (h2t : String → String) : Store → Prop where
  | init : Reachable h2t Store.empty
  | template_save {s : Store} {t : EmailTemplate} {s' : Store}
      {t' : EmailTemplate} :
      Reachable h2t s → emailTemplateSave h2t s t = (s', t') →
      Reachable h2t s'
  | translation_save {s : Store} {t : EmailTemplateTranslation} {s' : Store}
      {t' : EmailTemplateTranslation} :
      Reachable h2t s →
      emailTemplateTranslationSave h2t s t = Except.ok (s', t') →
      Reachable h2t s'

/-! ## General helper lemmas -/

/-- The first match of a predicate is the head of the filtered list. -/
theorem find_eq_head_of_filter {α : Type} (p : α → Bool) (l : List α) :
    l.find? p = (l.filter p).head? := by
  induction l with
  | nil => rfl
  | cons a l ih =>
    by_cases h : p a = true
    · rw [List.find?_cons_of_pos l h, List.filter_cons_of_pos h]
      rfl
    · rw [List.find?_cons_of_neg l h, List.filter_cons_of_neg h, ih]

/-! ## Claim C2: the locale normalizer -/

/-- Modelled from the spec: the normalizer exactly as claim C2 states it,
with the core-language test applied to the already lowercased and
hyphenated form of the input. -/
def normalize_locale_spec_as_claimed (supported : List String)
    (default_locale : String) (raw : String) : String :=
  let canonical := pyReplaceUnderscoreHyphen (pyLower raw)
  if canonical ∈ supported then canonical
  else if pyTake2 canonical ∈ supported then pyTake2 canonical
  else default_locale

/-- C2 (counterexample): on input "EN-US" with supported set ["en"], the
claimed algorithm (core test on the cleaned form) yields "en", but the
code takes the first two characters of the raw input ("EN"), misses, and
falls back to the configured default instead. -/
theorem c2_normalizer_counterexample :
    clean_language_code_input ["en"] "default-locale" "EN-US"
        = "default-locale" ∧
    normalize_locale_spec_as_claimed ["en"] "default-locale" "EN-US" = "en" ∧
    ("default-locale" : String) ≠ "en" :=
  ⟨rfl, rfl, by decide⟩

/-- C2 (amended): the normalizer returns the lowercased,
underscore-to-hyphen form of the input if that form is supported; else the
first two characters of the RAW input (the core language) if those are
supported; else the configured default locale. -/
theorem c2_normalizer_amended (supported : List String)
    (default_locale raw : String) :
    (pyReplaceUnderscoreHyphen (pyLower raw) ∈ supported →
      clean_language_code_input supported default_locale raw =
        pyReplaceUnderscoreHyphen (pyLower raw)) ∧
    (pyReplaceUnderscoreHyphen (pyLower raw) ∉ supported →
      pyTake2 raw ∈ supported →
        clean_language_code_input supported default_locale raw =
          pyTake2 raw) ∧
    (pyReplaceUnderscoreHyphen (pyLower raw) ∉ supported →
      pyTake2 raw ∉ supported →
        clean_language_code_input supported default_locale raw =
          default_locale) := by
  unfold clean_language_code_input
  refine ⟨fun h1 => ?_, fun h1 h2 => ?_, fun h1 h2 => ?_⟩
  · rw [if_pos h1]
  · rw [if_neg h1, if_pos h2]
  · rw [if_neg h1, if_neg h2]

/-- C2 witness: the core-language fallback on "en-US" under ["en"]. -/
theorem c2_normalizer_amended_witness :
    clean_language_code_input ["en"] "x" "en-US" = pyTake2 "en-US" :=
  (c2_normalizer_amended ["en"] "x" "en-US").2.1 (by decide) (by decide)

/-! ## Claim C8: concrete normalizations -/

/-- C8: under any supported-locale configuration containing "en" and
"en-gb" but not "en-us", the inputs en_GB, en-GB and en-gb all normalize
to en-gb, and en-US normalizes to en. -/
theorem c8_concrete_normalizations (supported : List String)
    (default_locale : String) (h_en : "en" ∈ supported)
    (h_gb : "en-gb" ∈ supported) (h_us : "en-us" ∉ supported) :
    clean_language_code_input supported default_locale "en_GB" = "en-gb" ∧
    clean_language_code_input supported default_locale "en-GB" = "en-gb" ∧
    clean_language_code_input supported default_locale "en-gb" = "en-gb" ∧
    clean_language_code_input supported default_locale "en-US" = "en" := by
  refine ⟨?_, ?_, ?_, ?_⟩
  · show (if ("en-gb" : String) ∈ supported then "en-gb"
      else if ("en" : String) ∈ supported then "en" else default_locale)
        = "en-gb"
    rw [if_pos h_gb]
  · show (if ("en-gb" : String) ∈ supported then "en-gb"
      else if ("en" : String) ∈ supported then "en" else default_locale)
        = "en-gb"
    rw [if_pos h_gb]
  · show (if ("en-gb" : String) ∈ supported then "en-gb"
      else if ("en" : String) ∈ supported then "en" else default_locale)
        = "en-gb"
    rw [if_pos h_gb]
  · show (if ("en-us" : String) ∈ supported then "en-us"
      else if ("en" : String) ∈ supported then "en" else default_locale)
        = "en"
    rw [if_neg h_us, if_pos h_en]

/-- C8 witness: the configuration ["en", "en-gb"]. -/
theorem c8_concrete_normalizations_witness :
    clean_language_code_input ["en", "en-gb"] "x" "en_GB" = "en-gb" ∧
    clean_language_code_input ["en", "en-gb"] "x" "en-GB" = "en-gb" ∧
    clean_language_code_input ["en", "en-gb"] "x" "en-gb" = "en-gb" ∧
    clean_language_code_input ["en", "en-gb"] "x" "en-US" = "en" :=
  c8_concrete_normalizations ["en", "en-gb"] "x" (by decide) (by decide)
    (by decide)

/-! ## Claim C6: unknown template name -/

/-- C6: when no stored template has the requested name, the lookup fails
with EmailTemplateDoesNotExist (the spec name is TemplateNotFound), for
every requested locale and configuration, and with no other error. -/
theorem c6_unknown_name_fails (LANGUAGES : List String)
    (LANGUAGE_CODE : String) (s : Store) (name locale_code : String)
    (h : ∀ t ∈ s.templates, t.name ≠ name) :
    get_by_name_then_locale LANGUAGES LANGUAGE_CODE s name locale_code =
      Except.error LookupError.emailTemplateDoesNotExist := by
  have hf : s.templates.filter (fun t => decide (t.name = name)) = [] := by
    simp only [List.filter_eq_nil_iff, decide_eq_true_eq]
    exact h
  unfold get_by_name_then_locale
  rw [hf]
  rfl

/-! ## Shared concrete fixtures -/

/-- A stored primary template (name "welcome", locale "en"). -/
def demoParent : EmailTemplate :=
  ⟨some 1, "welcome", "en", "subject", "<p>hi</p>", "hi"⟩

/-- A stored translation of `demoParent` into "en-gb". -/
def demoTransGB : EmailTemplateTranslation :=
  ⟨some 1, some demoParent, "en-gb", "subject", "<p>hi</p>", "hi"⟩

/-- A store holding `demoParent` and its "en-gb" translation. -/
def demoStore : Store := ⟨[demoParent], [demoTransGB], 2, 2⟩

/-- C6 witness: looking up a missing name in a nonempty store. -/
theorem c6_unknown_name_fails_witness :
    get_by_name_then_locale ["en"] "en" demoStore "missing" "en" =
      Except.error LookupError.emailTemplateDoesNotExist :=
  c6_unknown_name_fails ["en"] "en" demoStore "missing" "en" (by decide)

/-! ## Claim C1: the resolver -/

/-- Modelled from the spec (resolver steps 3 to 5 of section 4.2): return
the template's own content when its locale equals the normalized request;
else the translation with the normalized locale when one exists; else the
template's own (primary) content. -/
def resolve_spec (cleaned_locale_code : String) (template : EmailTemplate)
    (translations : List EmailTemplateTranslation) : LookupResult :=
  if template.locale = cleaned_locale_code then
    LookupResult.template template
  else
    match translations.find?
        (fun r => decide (r.locale = cleaned_locale_code)) with
    | some tr => LookupResult.translation tr
    | none => LookupResult.template template

/-- C1: once the name lookup finds the template, the resolver returns
exactly what the spec describes — the template itself on a locale match,
else the matching translation if present, else the template as fallback —
and never fails.  The uniqueness hypothesis on matching translations
reflects the claim speaking of "the Translation of T whose locale equals
the normalized form of R". -/
theorem c1_resolver_matches_spec (LANGUAGES : List String)
    (LANGUAGE_CODE : String) (s : Store) (T : EmailTemplate)
    (name locale_code : String)
    (hname : s.templates.filter (fun t => decide (t.name = name)) = [T])
    (hone : ((relatedTranslations s T).filter (fun r =>
        decide (r.locale = clean_language_code_input LANGUAGES LANGUAGE_CODE
          locale_code))).length ≤ 1) :
    get_by_name_then_locale LANGUAGES LANGUAGE_CODE s name locale_code =
      Except.ok (resolve_spec
        (clean_language_code_input LANGUAGES LANGUAGE_CODE locale_code) T
        (relatedTranslations s T)) := by
  unfold get_by_name_then_locale resolve_spec
  rw [hname]
  set c := clean_language_code_input LANGUAGES LANGUAGE_CODE locale_code
    with hc
  show (if T.locale ≠ c then _ else _) = _
  by_cases hloc : T.locale = c
  · rw [if_neg (not_not_intro hloc), if_pos hloc]
  · rw [if_pos hloc, if_neg hloc]
    rcases hfil : (relatedTranslations s T).filter
        (fun r => decide (r.locale = c)) with _ | ⟨tr, rest⟩
    · rw [hfil, find_eq_head_of_filter, hfil]
      rfl
    · rcases rest with _ | ⟨tr2, rest2⟩
      · rw [hfil, find_eq_head_of_filter, hfil]
        rfl
      · exfalso
        rw [hfil] at hone
        simp at hone

/-- C1 witness: resolving "welcome" for "en_GB" returns the stored
"en-gb" translation. -/
theorem c1_resolver_matches_spec_witness :
    get_by_name_then_locale ["en", "en-gb"] "en-us" demoStore "welcome"
        "en_GB" =
      Except.ok (resolve_spec "en-gb" demoParent [demoTransGB]) :=
  c1_resolver_matches_spec ["en", "en-gb"] "en-us" demoStore demoParent
    "welcome" "en_GB" (by decide) (by decide)

/-! ## The integrity guard: supporting lemmas -/

/-- With a set parent and a blank locale, the guard condition at models.py
line 306 is falsy, so both checks are skipped. -/
theorem enforce_skip {s : Store} {t : EmailTemplateTranslation}
    {P : EmailTemplate} (hp : t.parent_template = some P)
    (hl : t.locale = "") :
    enforce_integrity s t = none := by
  simp only [enforce_integrity, hp, hl, if_true]

/-- With the parent relation unset, the guard access itself fails, before
either check and regardless of the store contents. -/
theorem enforce_unset_parent {s : Store} {t : EmailTemplateTranslation}
    (hp : t.parent_template = none) :
    enforce_integrity s t =
      some TranslationSaveError.relatedObjectDoesNotExist := by
  simp only [enforce_integrity, hp]

/-- A guard that passed with a set parent and non-blank locale certifies
an empty duplicate queryset and a locale distinct from the parent's. -/
theorem enforce_none_elim {s : Store} {t : EmailTemplateTranslation}
    {P : EmailTemplate} (hp : t.parent_template = some P)
    (hl : t.locale ≠ "") (h : enforce_integrity s t = none) :
    base_queryset s t = [] ∧ t.locale ≠ P.locale := by
  simp only [enforce_integrity, hp] at h
  rw [if_neg hl] at h
  by_cases hb : base_queryset s t = []
  · rw [if_pos hb] at h
    by_cases hsame : t.locale = P.locale
    · rw [if_pos hsame] at h
      cases h
    · exact ⟨hb, hsame⟩
  · rw [if_neg hb] at h
    cases h

/-- A nonempty duplicate queryset makes the guard raise the duplicate
error (models.py 316-325). -/
theorem enforce_duplicate {s : Store} {t : EmailTemplateTranslation}
    {P : EmailTemplate} (hp : t.parent_template = some P)
    (hl : t.locale ≠ "") (hb : base_queryset s t ≠ []) :
    enforce_integrity s t =
      some (TranslationSaveError.integrityError
        (IntegrityError.duplicateTranslation P.name t.locale)) := by
  simp only [enforce_integrity, hp]
  rw [if_neg hl, if_neg hb]

/-- With no duplicate, a locale equal to the parent's makes the guard
raise the same-locale error (models.py 327-336). -/
theorem enforce_same_locale {s : Store} {t : EmailTemplateTranslation}
    {P : EmailTemplate} (hp : t.parent_template = some P)
    (hl : t.locale ≠ "") (hb : base_queryset s t = [])
    (he : t.locale = P.locale) :
    enforce_integrity s t =
      some (TranslationSaveError.integrityError
        (IntegrityError.sameLocaleAsParent P.name t.locale)) := by
  simp only [enforce_integrity, hp]
  rw [if_neg hl, if_pos hb, if_pos he]

/-- With no duplicate and a locale differing from the parent's, the guard
passes. -/
theorem enforce_pass {s : Store} {t : EmailTemplateTranslation}
    {P : EmailTemplate} (hp : t.parent_template = some P)
    (hl : t.locale ≠ "") (hb : base_queryset s t = [])
    (he : t.locale ≠ P.locale) :
    enforce_integrity s t = none := by
  simp only [enforce_integrity, hp]
  rw [if_neg hl, if_pos hb, if_neg he]

/-- A stored row with the same parent id and locale that is not excluded
by the primary-key exclusion belongs to the duplicate queryset. -/
theorem mem_base_queryset {s : Store} {t r : EmailTemplateTranslation}
    (hr : r ∈ s.translations)
    (hpid : r.parent_template_id = t.parent_template_id)
    (hloc : r.locale = t.locale) (hx : t.pk = none ∨ ¬r.pk = t.pk) :
    r ∈ base_queryset s t := by
  unfold base_queryset
  rcases hpk : t.pk with _ | k
  · simp only [List.mem_filter, decide_eq_true_eq]
    exact ⟨hr, hpid, hloc⟩
  · rcases hx with h0 | hne
    · rw [hpk] at h0
      cases h0
    · rw [hpk] at hne
      simp only [List.mem_filter, decide_eq_true_eq]
      exact ⟨⟨hr, hpid, hloc⟩, hne⟩

/-- An empty duplicate queryset means every stored row with this parent id
and locale is the row being updated itself (matched by primary key). -/
theorem base_queryset_nil_elim {s : Store} {t : EmailTemplateTranslation}
    (hb : base_queryset s t = []) :
    ∀ r ∈ s.translations, r.parent_template_id = t.parent_template_id →
      r.locale = t.locale → r.pk = t.pk ∧ t.pk ≠ none := by
  intro r hr hpid hloc
  by_cases h0 : t.pk = none
  · exfalso
    have hmem := mem_base_queryset hr hpid hloc (Or.inl h0)
    rw [hb] at hmem
    cases hmem
  · refine ⟨?_, h0⟩
    by_cases hne : r.pk = t.pk
    · exact hne
    · exfalso
      have hmem := mem_base_queryset hr hpid hloc (Or.inr hne)
      rw [hb] at hmem
      cases hmem

/-- If every stored row matching the parent id and locale carries the
instance's own primary key, the duplicate queryset is empty. -/
theorem base_queryset_nil_intro {s : Store} {t : EmailTemplateTranslation}
    {k : Nat} (hpk : t.pk = some k)
    (hdup : ∀ r ∈ s.translations,
      r.parent_template_id = t.parent_template_id → r.locale = t.locale →
        r.pk = t.pk) :
    base_queryset s t = [] := by
  unfold base_queryset
  rw [hpk]
  apply List.filter_eq_nil_iff.mpr
  intro r hrmem
  obtain ⟨hr, hmatch⟩ := List.mem_filter.mp hrmem
  rw [decide_eq_true_eq] at hmatch
  have := hdup r hr hmatch.1 hmatch.2
  rw [hpk] at this
  simp [this]

/-- A passing guard lets the save persist (structure of
`EmailTemplateTranslation.save`, models.py 338-342). -/
theorem save_ok_of_enforce_none {h2t : String → String} {s : Store}
    {t : EmailTemplateTranslation} (h : enforce_integrity s t = none) :
    ∃ s' t', emailTemplateTranslationSave h2t s t = Except.ok (s', t') := by
  unfold emailTemplateTranslationSave
  rw [h]
  rcases t.pk with _ | k <;> exact ⟨_, _, rfl⟩

/-! ## Blank-locale fixtures (reachable by explicit saves) -/

/-- An unsaved template whose locale is the empty string. -/
def blankTpl : EmailTemplate := ⟨none, "welcome", "", "s", "<p>", "b"⟩

/-- The same template as persisted by the first save. -/
def blankParent : EmailTemplate := ⟨some 1, "welcome", "", "s", "<p>", "b"⟩

/-- Store after saving `blankTpl`. -/
def blankStore1 : Store := ⟨[blankParent], [], 2, 1⟩

/-- An unsaved translation of `blankParent` with a blank locale. -/
def blankTrans : EmailTemplateTranslation :=
  ⟨none, some blankParent, "", "s", "<p>", "b"⟩

/-- The translation row persisted by the first translation save. -/
def blankRow1 : EmailTemplateTranslation :=
  ⟨some 1, some blankParent, "", "s", "<p>", "b"⟩

/-- The translation row persisted by the second translation save. -/
def blankRow2 : EmailTemplateTranslation :=
  ⟨some 2, some blankParent, "", "s", "<p>", "b"⟩

/-- Store after saving one blank-locale translation. -/
def blankStore2 : Store := ⟨[blankParent], [blankRow1], 2, 2⟩

/-- Store after saving two blank-locale translations of the same parent. -/
def blankStore3 : Store := ⟨[blankParent], [blankRow1, blankRow2], 2, 3⟩

/-- `blankStore1` arises from one template save. -/
theorem blankStore1_reachable (h2t : String → String) :
    Reachable h2t blankStore1 :=
  @Reachable.template_save h2t Store.empty blankTpl blankStore1 blankParent
    Reachable.init rfl

/-- `blankStore2` arises by also saving one blank-locale translation. -/
theorem blankStore2_reachable (h2t : String → String) :
    Reachable h2t blankStore2 :=
  @Reachable.translation_save h2t blankStore1 blankTrans blankStore2
    blankRow1 (blankStore1_reachable h2t) rfl

/-- `blankStore3` arises by saving the same blank-locale translation
content twice. -/
theorem blankStore3_reachable (h2t : String → String) :
    Reachable h2t blankStore3 :=
  @Reachable.translation_save h2t blankStore2 blankTrans blankStore3
    blankRow2 (blankStore2_reachable h2t) rfl

/-! ## Claim C4: duplicate translations are rejected -/

/-- C4 (counterexample): a translation being created with parent
`blankParent` and locale "" saves successfully even though another
persisted translation of the same parent has the same locale — the guard
is skipped entirely for blank locales, so no DuplicateTranslation error is
raised and the row is persisted. -/
theorem c4_duplicate_counterexample :
    Reachable (fun x => x) blankStore2 ∧
    blankRow1 ∈ blankStore2.translations ∧
    blankRow1.parent_template_id = blankTrans.parent_template_id ∧
    blankRow1.locale = blankTrans.locale ∧ blankTrans.pk = none ∧
    emailTemplateTranslationSave (fun x => x) blankStore2 blankTrans =
      Except.ok (blankStore3, blankRow2) :=
  ⟨blankStore2_reachable (fun x => x), by decide, rfl, rfl, rfl, rfl⟩

/-- C4 (amended): for a translation with a NON-EMPTY locale and a set
parent, if some other persisted translation (excluding the row being
updated, identified by primary key) has the same parent and locale, the
save fails with the DuplicateTranslation integrity error, and nothing is
persisted (the error return carries no store). -/
theorem c4_duplicate_rejected (h2t : String → String) (s : Store)
    (t r : EmailTemplateTranslation) (P : EmailTemplate)
    (hp : t.parent_template = some P) (hl : t.locale ≠ "")
    (hr : r ∈ s.translations)
    (hpid : r.parent_template_id = t.parent_template_id)
    (hloc : r.locale = t.locale) (hother : t.pk = none ∨ ¬r.pk = t.pk) :
    emailTemplateTranslationSave h2t s t =
      Except.error (TranslationSaveError.integrityError
        (IntegrityError.duplicateTranslation P.name t.locale)) := by
  have hb : base_queryset s t ≠ [] := by
    intro h0
    have hmem := mem_base_queryset hr hpid hloc hother
    rw [h0] at hmem
    cases hmem
  unfold emailTemplateTranslationSave
  rw [enforce_duplicate hp hl hb]

/-- C4 witness: creating a second "en-gb" translation of `demoParent`. -/
theorem c4_duplicate_rejected_witness :
    emailTemplateTranslationSave (fun x => x) demoStore
        ⟨none, some demoParent, "en-gb", "s", "<p>", "b"⟩ =
      Except.error (TranslationSaveError.integrityError
        (IntegrityError.duplicateTranslation "welcome" "en-gb")) :=
  c4_duplicate_rejected (fun x => x) demoStore
    ⟨none, some demoParent, "en-gb", "s", "<p>", "b"⟩ demoTransGB demoParent
    rfl (by decide) (by decide) rfl rfl (Or.inl rfl)

/-! ## Claim C5: a translation may not duplicate the parent locale -/

/-- C5 (counterexample): a translation whose locale equals its parent
template's locale (both blank) saves successfully — the guard is skipped
for blank locales, so no SameLocaleAsParent error is raised and the row is
persisted. -/
theorem c5_same_locale_counterexample :
    Reachable (fun x => x) blankStore1 ∧
    blankTrans.parent_template = some blankParent ∧
    blankTrans.locale = blankParent.locale ∧
    emailTemplateTranslationSave (fun x => x) blankStore1 blankTrans =
      Except.ok (blankStore2, blankRow1) :=
  ⟨blankStore1_reachable (fun x => x), rfl, rfl, rfl⟩

/-- C5 (amended): a translation with a NON-EMPTY locale equal to its
parent template's locale always fails to save (nothing is persisted); the
error is SameLocaleAsParent whenever no other translation of the parent
already holds that locale (otherwise the duplicate check fires first). -/
theorem c5_same_locale_rejected (h2t : String → String) (s : Store)
    (t : EmailTemplateTranslation) (P : EmailTemplate)
    (hp : t.parent_template = some P) (hl : t.locale ≠ "")
    (he : t.locale = P.locale) :
    (∃ e, emailTemplateTranslationSave h2t s t = Except.error e) ∧
    (base_queryset s t = [] →
      emailTemplateTranslationSave h2t s t =
        Except.error (TranslationSaveError.integrityError
          (IntegrityError.sameLocaleAsParent P.name t.locale))) := by
  constructor
  · by_cases hb : base_queryset s t = []
    · refine ⟨TranslationSaveError.integrityError
        (IntegrityError.sameLocaleAsParent P.name t.locale), ?_⟩
      unfold emailTemplateTranslationSave
      rw [enforce_same_locale hp hl hb he]
    · refine ⟨TranslationSaveError.integrityError
        (IntegrityError.duplicateTranslation P.name t.locale), ?_⟩
      unfold emailTemplateTranslationSave
      rw [enforce_duplicate hp hl hb]
  · intro hb
    unfold emailTemplateTranslationSave
    rw [enforce_same_locale hp hl hb he]

/-- A store holding only `demoParent`, with no translations. -/
def demoStoreNoTrans : Store := ⟨[demoParent], [], 2, 1⟩

/-- C5 witness: an "en" translation under the "en" parent is rejected. -/
theorem c5_same_locale_rejected_witness :
    (∃ e, emailTemplateTranslationSave (fun x => x) demoStoreNoTrans
        ⟨none, some demoParent, "en", "s", "<p>", "b"⟩ = Except.error e) ∧
    (base_queryset demoStoreNoTrans
        ⟨none, some demoParent, "en", "s", "<p>", "b"⟩ = [] →
      emailTemplateTranslationSave (fun x => x) demoStoreNoTrans
          ⟨none, some demoParent, "en", "s", "<p>", "b"⟩ =
        Except.error (TranslationSaveError.integrityError
          (IntegrityError.sameLocaleAsParent "welcome" "en"))) :=
  c5_same_locale_rejected (fun x => x) demoStoreNoTrans
    ⟨none, some demoParent, "en", "s", "<p>", "b"⟩ demoParent rfl
    (by decide) rfl

/-! ## Claim C7: re-saving a valid translation succeeds -/

/-- C7: re-saving a persisted translation that already satisfies both
integrity constraints succeeds and returns the row unchanged: the
duplicate queryset excludes the row's own primary key, so no
DuplicateTranslation error is raised against itself. -/
theorem c7_resave_succeeds (h2t : String → String) (s : Store)
    (t : EmailTemplateTranslation) (P : EmailTemplate) (k : Nat)
    (hpk : t.pk = some k) (hmem : t ∈ s.translations)
    (hp : t.parent_template = some P)
    (hdup : ∀ r ∈ s.translations,
      r.parent_template_id = t.parent_template_id → r.locale = t.locale →
        r.pk = t.pk)
    (hloc : t.locale ≠ P.locale) :
    ∃ s', emailTemplateTranslationSave h2t s t = Except.ok (s', t) := by
  have henf : enforce_integrity s t = none := by
    by_cases hl : t.locale = ""
    · exact enforce_skip hp hl
    · exact enforce_pass hp hl (base_queryset_nil_intro hpk hdup) hloc
  have hder : derive_text_template h2t t.pk t.text_template
      t.html_template = t.text_template := by
    rw [hpk]
    simp [derive_text_template]
  unfold emailTemplateTranslationSave
  rw [henf]
  rcases hpk2 : t.pk with _ | k2
  · rw [hpk2] at hpk
    cases hpk
  · rw [hpk2] at hder
    dsimp only
    rw [hder, ← hpk2]
    exact ⟨_, rfl⟩

/-- C7 witness: re-saving the stored "en-gb" translation unchanged. -/
theorem c7_resave_succeeds_witness :
    ∃ s', emailTemplateTranslationSave (fun x => x) demoStore demoTransGB =
      Except.ok (s', demoTransGB) :=
  c7_resave_succeeds (fun x => x) demoStore demoTransGB demoParent 1 rfl
    (by decide) rfl (by decide) (by decide)

/-! ## Claim C9: text body auto-derivation -/

/-- C9: on first save (no primary key yet) a blank text body is set to the
HTML-to-text conversion of the HTML body; a non-blank text body is left as
given; and on a save of an already-persisted row (primary key set) the
text body is never auto-derived again, even when blank.  This holds for
templates, and for translations whenever the save succeeds. -/
theorem c9_text_autoderivation (h2t : String → String) (s : Store) :
    (∀ t : EmailTemplate,
      ((emailTemplateSave h2t s t).2).text_template =
        (if t.pk = none ∧ t.text_template = "" then h2t t.html_template
         else t.text_template)) ∧
    (∀ (t : EmailTemplateTranslation) (s' : Store)
        (t' : EmailTemplateTranslation),
      emailTemplateTranslationSave h2t s t = Except.ok (s', t') →
        t'.text_template =
          (if t.pk = none ∧ t.text_template = "" then h2t t.html_template
           else t.text_template)) := by
  constructor
  · intro t
    unfold emailTemplateSave
    rcases t.pk with _ | k <;> rfl
  · intro t s' t' hsave
    unfold emailTemplateTranslationSave at hsave
    rcases henf : enforce_integrity s t with _ | e
    swap
    · rw [henf] at hsave
      cases hsave
    · rw [henf] at hsave
      rcases hpk : t.pk with _ | k
      · rw [hpk] at hsave
        dsimp only at hsave
        injection hsave with h
        injection h with h1 h2
        rw [← h2]
        rfl
      · rw [hpk] at hsave
        dsimp only at hsave
        injection hsave with h
        injection h with h1 h2
        rw [← h2]
        rfl

/-- C9 witness: first save of a template with a blank text body derives it
from the HTML body. -/
theorem c9_text_autoderivation_witness :
    ((emailTemplateSave (fun x => x) Store.empty
        ⟨none, "welcome", "en", "s", "<p>hi</p>", ""⟩).2).text_template =
      (if (none : Option Nat) = none ∧ "" = ""
       then (fun x => x) "<p>hi</p>" else "") :=
  (c9_text_autoderivation (fun x => x) Store.empty).1
    ⟨none, "welcome", "en", "s", "<p>hi</p>", ""⟩

/-! ## Claim C10: blank locale bypasses the guard; unset parent errors -/

/-- C10 (counterexample): a translation whose parent reference is unset
performs neither integrity check, but its save does NOT persist the row:
the guard's access to the unset non-nullable relation (models.py line 306)
raises RelatedObjectDoesNotExist and the save aborts. -/
theorem c10_unset_parent_counterexample :
    (⟨none, none, "", "s", "<p>", "b"⟩ :
        EmailTemplateTranslation).parent_template = none ∧
    emailTemplateTranslationSave (fun x => x) demoStore
        ⟨none, none, "", "s", "<p>", "b"⟩ =
      Except.error TranslationSaveError.relatedObjectDoesNotExist :=
  ⟨rfl, rfl⟩

/-- C10 (amended): for a translation with a SET parent and a blank locale,
the guard performs neither the duplicate check nor the same-locale check —
it passes on every store — and the save persists the row; in particular a
store holding two translations of the same parent, both with empty
locales, is reachable.  For a translation whose parent reference is unset,
neither check is performed either, but the save fails with
RelatedObjectDoesNotExist (raised by the guard's access to the unset
relation, regardless of the store) and nothing is persisted. -/
theorem c10_blank_locale_bypass (h2t : String → String) (s : Store)
    (t : EmailTemplateTranslation) (P : EmailTemplate)
    (hp : t.parent_template = some P) (hl : t.locale = "") :
    ((∀ s2 : Store, enforce_integrity s2 t = none) ∧
      (∃ s' t', emailTemplateTranslationSave h2t s t = Except.ok (s', t'))) ∧
    (∀ (u : EmailTemplateTranslation) (s2 : Store),
      u.parent_template = none →
        emailTemplateTranslationSave h2t s2 u =
          Except.error TranslationSaveError.relatedObjectDoesNotExist) ∧
    (∃ sN : Store, Reachable h2t sN ∧
      ∃ r1, r1 ∈ sN.translations ∧ ∃ r2, r2 ∈ sN.translations ∧
        r1.pk ≠ r2.pk ∧ r1.parent_template_id = r2.parent_template_id ∧
        r1.parent_template_id ≠ none ∧ r1.locale = "" ∧ r2.locale = "") := by
  refine ⟨⟨fun s2 => enforce_skip hp hl,
    save_ok_of_enforce_none (enforce_skip hp hl)⟩, ?_, ?_⟩
  · intro u s2 hu
    unfold emailTemplateTranslationSave
    rw [enforce_unset_parent hu]
  · exact ⟨blankStore3, blankStore3_reachable h2t, blankRow1, by decide,
      blankRow2, by decide, by decide, by decide, by decide, rfl, rfl⟩

/-- C10 witness: a blank-locale translation of `demoParent`. -/
theorem c10_blank_locale_bypass_witness :
    ((∀ s2 : Store, enforce_integrity s2
        ⟨none, some demoParent, "", "s", "<p>", "b"⟩ = none) ∧
      (∃ s' t', emailTemplateTranslationSave (fun x => x) demoStore
          ⟨none, some demoParent, "", "s", "<p>", "b"⟩ =
        Except.ok (s', t'))) ∧
    (∀ (u : EmailTemplateTranslation) (s2 : Store),
      u.parent_template = none →
        emailTemplateTranslationSave (fun x => x) s2 u =
          Except.error TranslationSaveError.relatedObjectDoesNotExist) ∧
    (∃ sN : Store, Reachable (fun x => x) sN ∧
      ∃ r1, r1 ∈ sN.translations ∧ ∃ r2, r2 ∈ sN.translations ∧
        r1.pk ≠ r2.pk ∧ r1.parent_template_id = r2.parent_template_id ∧
        r1.parent_template_id ≠ none ∧ r1.locale = "" ∧ r2.locale = "") :=
  c10_blank_locale_bypass (fun x => x) demoStore
    ⟨none, some demoParent, "", "s", "<p>", "b"⟩ demoParent rfl rfl

/-! ## Claim C3: the translation-store invariant -/

/-- Pairwise relation maintained between persisted translation rows:
distinct primary keys, and rows sharing a set parent id never share a
non-blank locale. -/
def locales_ok (r1 r2 : EmailTemplateTranslation) : Prop :=
  r1.pk ≠ r2.pk ∧
    (r1.parent_template_id = r2.parent_template_id →
      r1.parent_template_id ≠ none → r1.locale = r2.locale →
        r1.locale = "")

/-- Inductive invariant: every persisted translation row carries an
assigned primary key below the auto-increment counter, and the rows are
pairwise `locales_ok`. -/
def storeInv (s : Store) : Prop :=
  (∀ r ∈ s.translations,
    ∃ k, r.pk = some k ∧ k < s.next_translation_pk) ∧
  s.translations.Pairwise locales_ok

/-- The relation `locales_ok` is symmetric. -/
theorem locales_ok_symm : Symmetric locales_ok := by
  intro a b h
  obtain ⟨h1, h2⟩ := h
  refine ⟨fun he => h1 he.symm, fun hpid hne hloc => ?_⟩
  rw [hloc]
  exact h2 hpid.symm (hpid ▸ hne) hloc.symm

/-- After a passing guard, no stored row other than (by primary key) the
row being saved shares the new row's set parent id and non-blank locale. -/
theorem no_blank_dup_with_new {s : Store} {t r : EmailTemplateTranslation}
    (henf : enforce_integrity s t = none) (hr : r ∈ s.translations)
    (hx : t.pk = none ∨ ¬r.pk = t.pk)
    (hpid : r.parent_template_id = t.parent_template_id)
    (hne : r.parent_template_id ≠ none) (hloc : r.locale = t.locale) :
    r.locale = "" := by
  by_cases hl : t.locale = ""
  · rw [hloc, hl]
  · rcases hp : t.parent_template with _ | P
    · exfalso
      apply hne
      rw [hpid]
      unfold EmailTemplateTranslation.parent_template_id
      rw [hp]
      rfl
    · obtain ⟨hb, _⟩ := enforce_none_elim hp hl henf
      obtain ⟨hpk_eq, hpk_ne⟩ := base_queryset_nil_elim hb r hr hpid hloc
      rcases hx with h0 | hne2
      · exact absurd h0 hpk_ne
      · exact absurd hpk_eq hne2

/-- Appending a freshly keyed row after a passing guard preserves the
bound and the pairwise relation (insert path of the save). -/
theorem append_preserves {s : Store} {t u : EmailTemplateTranslation}
    (henf : enforce_integrity s t = none)
    (hbound : ∀ r ∈ s.translations,
      ∃ k0, r.pk = some k0 ∧ k0 < s.next_translation_pk)
    (hpair : s.translations.Pairwise locales_ok)
    (hupk : u.pk = some s.next_translation_pk) (hpk : t.pk = none)
    (hupid : u.parent_template_id = t.parent_template_id)
    (huloc : u.locale = t.locale) :
    (∀ r ∈ s.translations ++ [u],
      ∃ k0, r.pk = some k0 ∧ k0 < s.next_translation_pk + 1) ∧
    (s.translations ++ [u]).Pairwise locales_ok := by
  constructor
  · intro r hrmem
    rcases List.mem_append.mp hrmem with hrold | hrnew
    · obtain ⟨k0, hk0, hlt⟩ := hbound r hrold
      exact ⟨k0, hk0, Nat.lt_succ_of_lt hlt⟩
    · rw [List.mem_singleton] at hrnew
      subst hrnew
      exact ⟨s.next_translation_pk, hupk, Nat.lt_succ_self _⟩
  · apply List.pairwise_append.mpr
    refine ⟨hpair, List.pairwise_singleton _ _, ?_⟩
    intro a ha b hb
    rw [List.mem_singleton] at hb
    subst hb
    constructor
    · obtain ⟨k0, hk0, hlt⟩ := hbound a ha
      rw [hk0, hupk]
      intro hcontra
      injection hcontra with hk
      exact absurd hk (Nat.ne_of_lt hlt)
    · intro hpid hne hloc
      exact no_blank_dup_with_new henf ha (Or.inl hpk)
        (hpid.trans hupid) hne (hloc.trans huloc)

/-- Updating the row keyed `k` in place (or inserting it when absent)
after a passing guard preserves the bound and the pairwise relation
(update path of the save). -/
theorem upsert_preserves {s : Store} {t u : EmailTemplateTranslation}
    {k : Nat} (henf : enforce_integrity s t = none)
    (hbound : ∀ r ∈ s.translations,
      ∃ k0, r.pk = some k0 ∧ k0 < s.next_translation_pk)
    (hpair : s.translations.Pairwise locales_ok)
    (hupk : u.pk = some k) (hpk : t.pk = some k)
    (hupid : u.parent_template_id = t.parent_template_id)
    (huloc : u.locale = t.locale) :
    (∀ r ∈ upsertTranslations s.translations u,
      ∃ k0, r.pk = some k0 ∧ k0 < max s.next_translation_pk (k + 1)) ∧
    (upsertTranslations s.translations u).Pairwise locales_ok := by
  have htu : t.pk = u.pk := hpk.trans hupk.symm
  unfold upsertTranslations
  by_cases hany : s.translations.any (fun r => decide (r.pk = u.pk)) = true
  · rw [if_pos hany]
    constructor
    · intro r hrmem
      obtain ⟨r0, hr0, hfr⟩ := List.mem_map.mp hrmem
      by_cases he : r0.pk = u.pk
      · rw [if_pos he] at hfr
        subst hfr
        exact ⟨k, hupk,
          lt_of_lt_of_le (Nat.lt_succ_self k) (le_max_right _ _)⟩
      · rw [if_neg he] at hfr
        subst hfr
        obtain ⟨k0, hk0, hlt⟩ := hbound r0 hr0
        exact ⟨k0, hk0, lt_of_lt_of_le hlt (le_max_left _ _)⟩
    · rw [List.pairwise_map]
      apply List.Pairwise.imp_of_mem ?_ hpair
      intro a b ha hb hab
      obtain ⟨habpk, habloc⟩ := hab
      by_cases hae : a.pk = u.pk
      · rw [if_pos hae]
        have hbe : ¬b.pk = u.pk := fun hbe => habpk (hae.trans hbe.symm)
        rw [if_neg hbe]
        constructor
        · exact fun hc => hbe hc.symm
        · intro hpid hne hloc
          have hbl : b.locale = "" :=
            no_blank_dup_with_new henf hb
              (Or.inr (fun hc => hbe (hc.trans htu)))
              (hpid.symm.trans hupid) (hpid ▸ hne) (hloc.symm.trans huloc)
          rw [hloc, hbl]
      · rw [if_neg hae]
        by_cases hbe : b.pk = u.pk
        · rw [if_pos hbe]
          constructor
          · exact hae
          · intro hpid hne hloc
            exact no_blank_dup_with_new henf ha
              (Or.inr (fun hc => hae (hc.trans htu)))
              (hpid.trans hupid) hne (hloc.trans huloc)
        · rw [if_neg hbe]
          exact ⟨habpk, habloc⟩
  · rw [if_neg hany]
    have hnotin : ∀ r ∈ s.translations, ¬r.pk = u.pk := by
      have hfalse := Bool.eq_false_iff.mpr hany
      intro r hr
      have := List.any_eq_false.mp hfalse r hr
      simpa using this
    constructor
    · intro r hrmem
      rcases List.mem_append.mp hrmem with hrold | hrnew
      · obtain ⟨k0, hk0, hlt⟩ := hbound r hrold
        exact ⟨k0, hk0, lt_of_lt_of_le hlt (le_max_left _ _)⟩
      · rw [List.mem_singleton] at hrnew
        subst hrnew
        exact ⟨k, hupk,
          lt_of_lt_of_le (Nat.lt_succ_self k) (le_max_right _ _)⟩
    · apply List.pairwise_append.mpr
      refine ⟨hpair, List.pairwise_singleton _ _, ?_⟩
      intro a ha b hb
      rw [List.mem_singleton] at hb
      subst hb
      constructor
      · exact hnotin a ha
      · intro hpid hne hloc
        exact no_blank_dup_with_new henf ha
          (Or.inr (fun hc => hnotin a ha (hc.trans htu)))
          (hpid.trans hupid) hne (hloc.trans huloc)

/-- A template save never touches the translation table, so it preserves
the invariant. -/
theorem template_save_preserves_inv {h2t : String → String} {s : Store}
    {t : EmailTemplate} {s' : Store} {t' : EmailTemplate}
    (hinv : storeInv s) (hsave : emailTemplateSave h2t s t = (s', t')) :
    storeInv s' := by
  unfold emailTemplateSave at hsave
  rcases hpk : t.pk with _ | k <;> rw [hpk] at hsave <;>
    dsimp only at hsave <;> injection hsave with h1 h2 <;>
      rw [← h1] <;> exact hinv

/-- A successful translation save preserves the invariant: the guard ran
on the pre-state, and the persisted row is either appended under a fresh
key or replaces the row with its own key. -/
theorem translation_save_preserves_inv {h2t : String → String} {s : Store}
    {t : EmailTemplateTranslation} {s' : Store}
    {t' : EmailTemplateTranslation} (hinv : storeInv s)
    (hsave : emailTemplateTranslationSave h2t s t = Except.ok (s', t')) :
    storeInv s' := by
  obtain ⟨hbound, hpair⟩ := hinv
  unfold emailTemplateTranslationSave at hsave
  rcases henf : enforce_integrity s t with _ | e
  swap
  · rw [henf] at hsave
    cases hsave
  · rw [henf] at hsave
    rcases hpk : t.pk with _ | k
    · rw [hpk] at hsave
      dsimp only at hsave
      injection hsave with h
      injection h with h1 h2
      rw [← h1]
      have happ := @append_preserves s t
        { pk := some s.next_translation_pk,
          parent_template := t.parent_template, locale := t.locale,
          subject := t.subject, html_template := t.html_template,
          text_template := derive_text_template h2t none t.text_template
            t.html_template }
        henf hbound hpair rfl hpk rfl rfl
      exact ⟨happ.1, happ.2⟩
    · rw [hpk] at hsave
      dsimp only at hsave
      injection hsave with h
      injection h with h1 h2
      rw [← h1]
      have hup := @upsert_preserves s t
        { pk := some k, parent_template := t.parent_template,
          locale := t.locale, subject := t.subject,
          html_template := t.html_template,
          text_template := derive_text_template h2t (some k) t.text_template
            t.html_template } k
        henf hbound hpair rfl hpk rfl rfl
      exact ⟨hup.1, hup.2⟩

/-- Every reachable store satisfies the invariant. -/
theorem reachable_inv {h2t : String → String} {s : Store}
    (h : Reachable h2t s) : storeInv s := by
  induction h with
  | init =>
    refine ⟨?_, List.Pairwise.nil⟩
    intro r hr
    cases hr
  | template_save hs hsave ih => exact template_save_preserves_inv ih hsave
  | translation_save hs hsave ih =>
    exact translation_save_preserves_inv ih hsave

/-- C3 (counterexample): a reachable store in which the parent template
has two persisted translations with equal locales, both also equal to the
parent's own locale — all blank, so both integrity checks were skipped. -/
theorem c3_invariant_counterexample :
    Reachable (fun x => x) blankStore3 ∧
    blankParent ∈ blankStore3.templates ∧
    blankRow1 ∈ blankStore3.translations ∧
    blankRow2 ∈ blankStore3.translations ∧ blankRow1.pk ≠ blankRow2.pk ∧
    blankRow1.parent_template_id = blankParent.pk ∧
    blankRow2.parent_template_id = blankParent.pk ∧
    blankRow1.locale = blankRow2.locale ∧
    blankRow1.locale = blankParent.locale :=
  ⟨blankStore3_reachable (fun x => x), by decide, by decide, by decide,
    by decide, rfl, rfl, rfl, rfl⟩

/-- C3 (amended): in every reachable store, two distinct persisted
translations of the same template never share a NON-BLANK locale; every
successful translation save implies the integrity guard passed on the
pre-state (both checks run before persisting, and a failed check persists
nothing since the error return carries no store); and for a translation
with a set parent and non-blank locale a passing guard certifies that its
locale differed from the parent object's locale and that no other
persisted row shared its parent and locale.  The same-locale-as-parent
property is a per-save guarantee, not a state invariant: blank-locale
rows bypass both checks, and a parent's locale can be edited afterwards. -/
theorem c3_translation_invariant (h2t : String → String) (s : Store)
    (hreach : Reachable h2t s) :
    (∀ (P : EmailTemplate) (r1 r2 : EmailTemplateTranslation),
      r1 ∈ s.translations → r2 ∈ s.translations → r1.pk ≠ r2.pk →
      r1.parent_template_id = P.pk → r2.parent_template_id = P.pk →
      P.pk ≠ none → r1.locale = r2.locale → r1.locale = "") ∧
    (∀ (t : EmailTemplateTranslation) (s' : Store)
        (t' : EmailTemplateTranslation),
      emailTemplateTranslationSave h2t s t = Except.ok (s', t') →
        enforce_integrity s t = none) ∧
    (∀ (t : EmailTemplateTranslation) (P : EmailTemplate),
      t.parent_template = some P → t.locale ≠ "" →
      enforce_integrity s t = none →
        t.locale ≠ P.locale ∧
        ∀ r ∈ s.translations,
          r.parent_template_id = t.parent_template_id →
            r.locale = t.locale → r.pk = t.pk ∧ t.pk ≠ none) := by
  refine ⟨?_, ?_, ?_⟩
  · intro P r1 r2 h1 h2 hpk hp1 hp2 hPpk hloc
    obtain ⟨hbound, hpair⟩ := reachable_inv hreach
    have hfa := List.Pairwise.forall locales_ok_symm hpair
    have hne12 : r1 ≠ r2 := fun he => hpk (he ▸ rfl)
    have hlok := hfa h1 h2 hne12
    exact hlok.2 (hp1.trans hp2.symm) (by rw [hp1]; exact hPpk) hloc
  · intro t s' t' hsave
    unfold emailTemplateTranslationSave at hsave
    rcases henf : enforce_integrity s t with _ | e
    · rfl
    · rw [henf] at hsave
      cases hsave
  · intro t P hp hl henf
    obtain ⟨hb, hne⟩ := enforce_none_elim hp hl henf
    exact ⟨hne, base_queryset_nil_elim hb⟩

/-- C3 witness: the amended invariant at the reachable store holding two
blank-locale translations. -/
theorem c3_translation_invariant_witness :
    (∀ (P : EmailTemplate) (r1 r2 : EmailTemplateTranslation),
      r1 ∈ blankStore3.translations → r2 ∈ blankStore3.translations →
      r1.pk ≠ r2.pk → r1.parent_template_id = P.pk →
      r2.parent_template_id = P.pk → P.pk ≠ none →
      r1.locale = r2.locale → r1.locale = "") ∧
    (∀ (t : EmailTemplateTranslation) (s' : Store)
        (t' : EmailTemplateTranslation),
      emailTemplateTranslationSave (fun x => x) blankStore3 t =
          Except.ok (s', t') →
        enforce_integrity blankStore3 t = none) ∧
    (∀ (t : EmailTemplateTranslation) (P : EmailTemplate),
      t.parent_template = some P → t.locale ≠ "" →
      enforce_integrity blankStore3 t = none →
        t.locale ≠ P.locale ∧
        ∀ r ∈ blankStore3.translations,
          r.parent_template_id = t.parent_template_id →
            r.locale = t.locale → r.pk = t.pk ∧ t.pk ≠ none) :=
  c3_translation_invariant (fun x => x) blankStore3
    (blankStore3_reachable (fun x => x))
